import Mathlib

/-!
Shallow embedding, over Lean data types, of the embedding-indexed document
store and clustering pipeline of the ai-search-tool repository
(`server/document_store_v2_optimized.py` and `server/server.py`), together
with theorems settling the specification claims about it.

Modelling conventions:
* Real-valued quantities (vector components, distances, similarity and
  silhouette scores) are modelled over `Int`; every claim under study only
  compares such values and never depends on a particular floating-point
  result.
* The sentence-transformer model, the ChromaDB nearest-neighbour backend and
  the scikit-learn KMeans and silhouette internals are external libraries,
  not code of this repository; they enter the model as explicit function
  parameters (`encode`, `dist`, `KMeansImpl`, `sil_val`, `clean_norm`)
  together with the input validation those libraries perform, which is the
  only part of their behaviour the code under study relies on.
* Fallible Python code (raised exceptions) is modelled with `Except Err`.
-/

/-- Error taxonomy of the embedded operations: `inputError` stands for the
invalid-argument rejection performed by the vector index on a malformed
query, `valueError` for a Python ValueError raised with the given
message. -/
inductive Err where
  | inputError (msg : String)
  | valueError (msg : String)
deriving DecidableEq

/-- An embedding vector. Components are modelled over `Int`, see the file
header. -/
abbrev Vec := List Int

/-- A document row of the SQLite ledger (`models.Document`); only the fields
the claims touch are carried. The `created_at` ordering is represented by
the position in the ledger list, which matches insertion order. -/
structure Doc where
  id : String
  title : String
  content : String
  tags : Option String := none
deriving DecidableEq

/-- State of `DocumentStoreV2Optimized`: the SQLite ledger (`docs`, in
`created_at` = insertion order), the ChromaDB collection (`index`, one
id-embedding entry per stored vector, in insertion order), whether the
sentence-transformer model has been loaded, and a ghost trace `history` of
every id ever handed out by `add_document` (used only to state claims about
id reuse; no operation reads it). -/
structure StoreState where
  docs : List Doc
  index : List (String × Vec)
  modelLoaded : Bool
  history : List String
deriving DecidableEq

/-- A freshly initialised store with no documents. -/
def empty_store : StoreState :=
  { docs := [], index := [], modelLoaded := false, history := [] }

/-- Stable insertion into a list sorted by the Boolean relation `le`: the
new element goes in front of the first element it relates to. -/
def insert_le (le : α → α → Bool) (x : α) : List α → List α
  | [] => [x]
  | y :: ys => if le x y then x :: y :: ys else y :: insert_le le x ys

/-- Stable sort by `le` (a foldr of stable insertions); used to model both
the ascending-distance order in which ChromaDB returns query hits and the
stable descending sort behind `collections.Counter.most_common`. -/
def sort_le (le : α → α → Bool) (l : List α) : List α :=
  l.foldr (insert_le le) []

/-- Model of the ChromaDB `collection.query` contract used by `search`: the
library rejects a non-positive number of requested results (and the spec,
section 4.2, states the same contract for the vector index); otherwise it
returns the stored pairs of id and distance-to-query sorted by ascending
distance, truncated to `n_results` entries. The distance function `dist`
(cosine distance in the deployed configuration) is an explicit parameter. -/
def chroma_query (dist : Vec → Vec → Int) (index : List (String × Vec))
    (qv : Vec) (n_results : Int) : Except Err (List (String × Int)) :=
  if n_results ≤ 0 then
    .error (.inputError "Number of requested results must be positive")
  else
    .ok ((sort_le (fun a b => decide (a.2 ≤ b.2))
      (index.map (fun e => (e.1, dist qv e.2)))).take n_results.toNat)

/-- The 1-based `created_at` rank of a document id, as computed by the
`doc_id_to_index` dictionary in `search`: position in the ledger ordered by
creation, with `0` as the not-found default of `.get`. -/
def ordinal_of (docs : List Doc) (docId : String) : Nat :=
  let j := docs.findIdx (fun d => d.id == docId)
  if j < docs.length then j + 1 else 0

/-- One entry of a `search` response. -/
structure SearchResult where
  document : Doc
  similarity_score : Int
  index : Nat
deriving DecidableEq

/-- The result-assembly loop of `search`: each returned id is resolved
against the ledger (hits whose id is not in the ledger are dropped), the
native distance `d` becomes the similarity `1 - d`, and the 1-based
creation ordinal is attached. The order of `hits` is preserved. -/
def resolve_results (docs : List Doc) (hits : List (String × Int)) : List SearchResult :=
  hits.filterMap fun h =>
    (docs.find? (fun d => d.id == h.1)).map fun d =>
      { document := d, similarity_score := 1 - h.2, index := ordinal_of docs h.1 }

/-- Model of `DocumentStoreV2Optimized.search`: an empty collection short-circuits to
an empty result list before the model is touched; otherwise the model is
lazily loaded, the query is embedded, the vector index is asked for
`min k count` neighbours and the hits are resolved in order. Returns the
result list together with the store state after the call. -/
def search (encode : String → Vec) (dist : Vec → Vec → Int) (query : String)
    (k : Int) (s : StoreState) : Except Err (List SearchResult × StoreState) :=
  if s.index.length = 0 then .ok ([], s)
  else
    (chroma_query dist s.index (encode query) (min k (s.index.length : Int))).map
      fun hits => (resolve_results s.docs hits, { s with modelLoaded := true })

/-- Id generation of `add_document`: the string doc_N_T where N is the
current collection count plus one and T the whole-second timestamp of the
call. -/
def make_doc_id (collectionCount : Nat) (t : Nat) : String :=
  "doc_" ++ toString (collectionCount + 1) ++ "_" ++ toString t

/-- Model of `DocumentStoreV2Optimized.add_document` at wall-clock second `t`: the id
is derived from the current collection count and the timestamp; the
document row and the embedding of its content (never of its tags) are
inserted into ledger and collection inside one transaction. A collision
with an id already present makes the whole insertion fail (primary-key
conflict in SQLite, duplicate id in ChromaDB) and the rolled-back
transaction leaves both stores unchanged. -/
def add_document (encode : String → Vec) (t : Nat) (title content : String)
    (tags : Option String) (s : StoreState) : Except Err (String × StoreState) :=
  let docId := make_doc_id s.index.length t
  if s.docs.any (fun d => d.id == docId) then
    .error (.valueError "UNIQUE constraint failed: documents.id")
  else
    .ok (docId,
      { s with
        modelLoaded := true
        docs := s.docs ++ [{ id := docId, title := title, content := content, tags := tags }]
        index := s.index ++ [(docId, encode content)]
        history := s.history ++ [docId] })

/-- Model of `DocumentStoreV2Optimized.delete_document`: removes the row and the
embedding when the id exists and reports whether it did. -/
def delete_document (docId : String) (s : StoreState) : Bool × StoreState :=
  if s.docs.any (fun d => d.id == docId) then
    (true,
      { s with
        docs := s.docs.filter (fun d => !(d.id == docId))
        index := s.index.filter (fun e => !(e.1 == docId)) })
  else (false, s)

/-- Model of `DocumentStoreV2Optimized.update_document`: updates the provided fields
of an existing row; the embedding is regenerated only when new content is
given and the model is already loaded (the guard on content and self.model
in the source). -/
def update_document (encode : String → Vec) (docId : String)
    (newTitle newContent newTags : Option String) (s : StoreState) : Bool × StoreState :=
  if s.docs.any (fun d => d.id == docId) then
    let docs := s.docs.map fun d =>
      if d.id == docId then
        { d with
          title := newTitle.getD d.title
          content := newContent.getD d.content
          tags := match newTags with | some tg => some tg | none => d.tags }
      else d
    let index :=
      match newContent with
      | some c =>
        if s.modelLoaded then
          s.index.map (fun e => if e.1 == docId then (e.1, encode c) else e)
        else s.index
      | none => s.index
    (true, { s with docs := docs, index := index })
  else (false, s)

/-- Model of `DocumentStoreV2Optimized.clear_all`: empties the ledger and recreates
the collection, returning the number of rows removed. -/
def clear_all (s : StoreState) : Nat × StoreState :=
  (s.docs.length, { s with docs := [], index := [] })

/-- An externally driven ledger mutation, for the id-uniqueness claim: an
`add` carries the wall-clock second at which it runs. -/
inductive StoreOp where
  | add (t : Nat) (title content : String) (tags : Option String)
  | del (docId : String)

/-- Effect of one mutation on the store; a failing `add` (duplicate id)
leaves the state unchanged, as the rolled-back transaction does. -/
def apply_store_op (encode : String → Vec) (st : StoreState) : StoreOp → StoreState
  | .add t title content tags =>
    match add_document encode t title content tags st with
    | .ok r => r.2
    | .error _ => st
  | .del docId => (delete_document docId st).2

/-- Runs a sequence of mutations against the store. -/
def run_ops (encode : String → Vec) (ops : List StoreOp) (s : StoreState) : StoreState :=
  ops.foldl (apply_store_op encode) s

/-- ASCII and control whitespace removed by the Python str.strip default. -/
def is_py_space (c : Char) : Bool :=
  c == ' ' || c == '\t' || c == '\n' || c == '\r' || c == '\x0b' || c == '\x0c'

/-- Python str.strip with no arguments: removes leading and trailing
whitespace. -/
def python_strip (s : String) : String :=
  String.mk (((s.data.dropWhile is_py_space).reverse.dropWhile is_py_space).reverse)

/-- Python str.title over ASCII text: the first letter of every alphabetic
run is uppercased, the following letters are lowercased. -/
def python_title (s : String) : String :=
  String.mk
    ((s.data.foldl
      (fun (st : Bool × List Char) c =>
        (c.isAlpha,
          (if c.isAlpha then (if st.1 then c.toLower else c.toUpper) else c) :: st.2))
      (false, [])).2.reverse)

/-- Python str.split on a comma: splitting the empty string gives one empty
field, every comma opens a new field. -/
def split_on_comma (s : String) : List String :=
  (s.data.foldr
    (fun c (acc : List (List Char)) =>
      if c = ',' then [] :: acc else (c :: acc.headD []) :: acc.tail)
    [[]]).map String.mk

/-- Python str.lower over ASCII text. -/
def python_lower (s : String) : String :=
  String.mk (s.data.map Char.toLower)

/-- The tag extraction of `generate_cluster_name_v5`: comma-split, strip,
lowercase, and drop the entries that strip to the empty string. -/
def split_tags (tagsStr : String) : List String :=
  ((split_on_comma tagsStr).map (fun t => python_lower (python_strip t))).filter (fun t => t ≠ "")

/-- Number of occurrences of `x` in `l`. -/
def count_occurrences (l : List String) (x : String) : Nat :=
  (l.filter (fun y => y == x)).length

/-- Model of `collections.Counter(l).most_common()`: one entry per distinct
element in first-encounter order, stably sorted by descending occurrence
count (Python sorted is stable, so elements with equal counts stay in
first-encounter order). -/
def most_common (l : List String) : List (String × Nat) :=
  sort_le (fun a b => decide (b.2 ≤ a.2))
    (l.eraseDups.map (fun x => (x, count_occurrences l x)))

/-- Model of `generate_cluster_name_v4`: the title of the representative member, with
a fixed placeholder when the representative id is not among the members. -/
def generate_cluster_name_v4 (documents : List Doc) (representative_id : String) : String :=
  match documents.find? (fun d => d.id == representative_id) with
  | some d => d.title
  | none => "Unnamed Cluster"

/-- Model of `generate_cluster_name_v5`: collect the members tags; a tag whose
occurrence count is at least half the member count (the source compares
count with len(documents) times 0.5, an exact comparison modelled as
2 * count at least total) is common; when common tags exist the name is the
top 3 of them in `most_common` order, title-cased and joined with the
plus separator, otherwise the v4 fallback. -/
def generate_cluster_name_v5 (documents : List Doc) (representative_id : String) : String :=
  let all_tags := (documents.map (fun d => split_tags (d.tags.getD ""))).flatten
  if all_tags.isEmpty then generate_cluster_name_v4 documents representative_id
  else
    let total_docs := documents.length
    let common_tags := (most_common all_tags).filterMap
      (fun tc => if 2 * tc.2 ≥ total_docs then some tc.1 else none)
    if common_tags.isEmpty then generate_cluster_name_v4 documents representative_id
    else String.intercalate " + " ((common_tags.take 3).map python_title)

/-- The naming method requested from the HTTP layer. The source also keeps
three older word-frequency heuristics (v1 to v3) that the specification,
section 9, declares superseded experiments outside the contract; they are
deterministic pure text functions and are not modelled. The source default
is v5 and v4 is its documented fallback. -/
inductive NamingMethod where
  | v4
  | v5
deriving DecidableEq

/-- Model of `ClusterRequest` with the source defaults: no requested cluster count,
candidate range 2 to 10, naming method v5. -/
structure ClusterRequest where
  num_clusters : Option Int := none
  min_clusters : Int := 2
  max_clusters : Int := 10
  naming_method : NamingMethod := .v5
deriving DecidableEq

/-- Metadata-only member entry of a cluster in the response. -/
structure DocMeta where
  id : String
  title : String
deriving DecidableEq

/-- One cluster of the response. -/
structure ClusterOut where
  cluster_id : Nat
  cluster_name : String
  size : Nat
  documents : List DocMeta
  representative_document_id : String
deriving DecidableEq

/-- Model of `ClusterResponse` as assembled by `compute_clusters`. -/
structure ClusterResponse where
  clusters : List ClusterOut
  num_clusters : Int
  silhouette_score : Int
  total_documents : Nat
deriving DecidableEq

/-- The external numeric building blocks of the pipeline, as explicit
parameters: the sentence-transformer `encode`, the KMeans fit (seed, number
of clusters and data to labels and cluster centers), the silhouette score
value, and the nan-replacement plus row-normalisation step applied to every
embedding before clustering (a per-row map in the source; real-valued, so
its value function is a parameter while its shape-preservation is by
construction). -/
structure PipelineImpl where
  encode : String → Vec
  kmeans : Nat → Nat → List Vec → (List Nat × List Vec)
  sil_val : List Vec → List Nat → Int
  clean_norm : Vec → Vec

/-- Model of `sklearn.cluster.KMeans(n_clusters=k, random_state=rs,
n_init=10).fit_predict` together with `cluster_centers_`: the library
rejects a cluster count below 1 or above the sample count; otherwise the
fit is a deterministic function of the seed and the data. When the code
passes an explicit random_state the ambient `entropy` (the OS randomness an
unseeded run would consume) is ignored. -/
def kmeans_fit_predict (P : PipelineImpl) (entropy : Nat) (randomState : Option Nat)
    (k : Int) (embs : List Vec) : Except Err (List Nat × List Vec) :=
  if 1 ≤ k ∧ k ≤ (embs.length : Int) then
    .ok (P.kmeans (randomState.getD entropy) k.toNat embs)
  else
    .error (.valueError "Invalid number of clusters for KMeans")

/-- Model of `sklearn.metrics.silhouette_score`: the library validates that
the number of distinct labels lies between 2 and the sample count minus 1
and raises a ValueError otherwise; the score itself is the real-valued
`sil_val` parameter. -/
def silhouette_checked (P : PipelineImpl) (embs : List Vec) (labels : List Nat) :
    Except Err Int :=
  let nLabels := labels.dedup.length
  if 2 ≤ nLabels ∧ nLabels ≤ embs.length - 1 then .ok (P.sil_val embs labels)
  else .error (.valueError "Number of labels is not valid for silhouette_score")

/-- The Python range of candidate cluster counts, as a list of integers. -/
def candidate_ks (a b : Int) : List Int :=
  (List.range (b - a).toNat).map (fun i => a + i)

/-- The candidate search of `compute_clusters` when no cluster count is
requested: try every k in range(min_clusters, min(max_clusters + 1, n)),
each with the fixed seed 42, score it with the silhouette score, and keep
the first k attaining the maximum score strictly above the initial -1. -/
def choose_best_k (P : PipelineImpl) (entropy : Nat) (minClusters maxClusters : Int)
    (embs : List Vec) : Except Err Int := do
  let best ← (candidate_ks minClusters (min (maxClusters + 1) (embs.length : Int))).foldlM
    (fun (st : Int × Int) k => do
      let fit ← kmeans_fit_predict P entropy (some 42) k embs
      if k < (embs.length : Int) then do
        let score ← silhouette_checked P embs fit.1
        pure (if st.1 < score then (score, k) else st)
      else
        pure st)
    ((-1 : Int), (2 : Int))
  pure best.2

/-- The cluster count actually used when the request carries one:
min(requested, total - 1), exactly as in the source. -/
def num_clusters_used (r : Int) (n : Nat) : Int :=
  min r ((n : Int) - 1)

/-- Stated only for comparison with `num_clusters_used`: the clamp of the
requested count into the closed interval from 1 to total minus 1 that the
specification text prescribes. -/
def spec_requested_k_clamp (r : Int) (n : Nat) : Int :=
  max 1 (min r ((n : Int) - 1))

/-- Squared Euclidean distance; `np.argmin` over Euclidean distances picks
the same first minimiser as over their squares. -/
def sq_dist (a b : Vec) : Int :=
  ((a.zipWith (fun x y => (x - y) * (x - y)) b).foldl (· + ·) 0)

/-- First index of the minimum, continuing the scan from index `i` with the
current best value and position. -/
def argmin_from (best : Int) (bestIdx i : Nat) : List Int → Nat
  | [] => bestIdx
  | x :: xs => if x < best then argmin_from x i (i + 1) xs else argmin_from best bestIdx (i + 1) xs

/-- Model of `np.argmin`: index of the first occurrence of the minimum. -/
def argmin_idx : List Int → Nat
  | [] => 0
  | x :: xs => argmin_from x 0 1 xs

/-- Assembly of cluster `i` in `compute_clusters`: member positions are the
ascending indices labelled `i`; members are resolved against the ledger
(unresolvable ids are dropped); the representative is the member whose
embedding is closest to the cluster center, first occurrence winning ties;
`np.argmin` on an empty member set raises. -/
def build_cluster (nm : NamingMethod) (documents : List Doc) (doc_ids : List String)
    (embs : List Vec) (labels : List Nat) (centers : List Vec) (i : Nat) :
    Except Err ClusterOut :=
  let memberIdx := (List.range labels.length).filter (fun idx => labels.getD idx 0 == i)
  let cluster_docs := memberIdx.filterMap (fun idx =>
    (doc_ids.get? idx).bind (fun did => documents.find? (fun d => d.id == did)))
  match memberIdx with
  | [] => .error (.valueError "attempt to get argmin of an empty sequence")
  | _ :: _ =>
    let center := centers.getD i []
    let distances := memberIdx.map (fun idx => sq_dist (embs.getD idx []) center)
    let representative_idx := memberIdx.getD (argmin_idx distances) 0
    let representative_id := (doc_ids.getD representative_idx "")
    let name :=
      match nm with
      | .v4 => generate_cluster_name_v4 cluster_docs representative_id
      | .v5 => generate_cluster_name_v5 cluster_docs representative_id
    .ok
      { cluster_id := i
        cluster_name := name
        size := cluster_docs.length
        documents := cluster_docs.map (fun d => { id := d.id, title := d.title })
        representative_document_id := representative_id }

/-- The tail of `compute_clusters` once the cluster count `num` is fixed:
the final KMeans run with the fixed seed 42, the silhouette scoring of the
final partition, and the assembly and naming of every cluster. -/
def final_clustering (P : PipelineImpl) (entropy : Nat) (nm : NamingMethod)
    (documents : List Doc) (doc_ids : List String) (embs : List Vec) (num : Int) :
    Except Err ClusterResponse := do
  let fit ← kmeans_fit_predict P entropy (some 42) num embs
  let final_score ← silhouette_checked P embs fit.1
  let clusters ← (List.range num.toNat).mapM
    (build_cluster nm documents doc_ids embs fit.1 fit.2)
  pure
    { clusters := clusters
      num_clusters := num
      silhouette_score := final_score
      total_documents := documents.length }

/-- Model of `compute_clusters` of `server.py`: fewer than 2 ledger documents is a
ValueError; the embeddings are pulled from the collection in insertion
order and cleaned; the cluster count is the requested one capped by
`num_clusters_used`, or found by `choose_best_k`; then `final_clustering`
runs (its `documents.length` is the ledger length reported as
total_documents). -/
def compute_clusters (P : PipelineImpl) (entropy : Nat) (req : ClusterRequest)
    (s : StoreState) : Except Err ClusterResponse :=
  if s.docs.length < 2 then
    .error (.valueError "Need at least 2 documents to perform clustering")
  else
    let doc_ids := s.index.map (fun e => e.1)
    let embs := (s.index.map (fun e => e.2)).map P.clean_norm
    if embs.length < 2 then
      .error (.valueError "Not enough documents with embeddings")
    else
      (match req.num_clusters with
        | some r => pure (num_clusters_used r embs.length)
        | none => choose_best_k P entropy req.min_clusters req.max_clusters embs) >>=
      final_clustering P entropy req.naming_method s.docs doc_ids embs

/-- The process-wide `cluster_cache` dictionary of `server.py`. -/
structure ClusterCache where
  clusters : Option ClusterResponse
  last_updated : Option Nat
  document_count : Nat
deriving DecidableEq

/-- Model of `invalidate_cluster_cache`: unconditionally resets all three cache
fields. -/
def invalidate_cluster_cache : ClusterCache :=
  { clusters := none, last_updated := none, document_count := 0 }

/-- The cache value at server start, identical to the invalidated one. -/
def cache0 : ClusterCache := invalidate_cluster_cache

/-- State of the server process: the shared document store, the cluster
cache, and the wall clock in whole seconds (used both for timestamps in
document ids and for the cache age). -/
structure ServerState where
  store : StoreState
  cache : ClusterCache
  now : Nat
deriving DecidableEq

/-- The seconds attribute of a Python timedelta between two instants given
in whole seconds: the day component is discarded, so the attribute is the
elapsed time modulo 86400. The source compares this attribute, not the
total elapsed time, against its 3600 second horizon. -/
def timedelta_seconds (later earlier : Nat) : Nat :=
  (later - earlier) % 86400

/-- The cache validity conjunction of `get_cached_clusters`: a previous
computation exists, its recorded document count equals the current one, a
last-update instant exists, and the timedelta seconds attribute since that
instant is below 3600. -/
def cache_is_valid (s : ServerState) : Bool :=
  s.cache.clusters.isSome
    && (s.cache.document_count == s.store.docs.length)
    && match s.cache.last_updated with
       | some lu => timedelta_seconds s.now lu < 3600
       | none => false

/-- Model of `get_cached_clusters`: fewer than 2 documents yields no clusters and no
state change; a valid cache is returned as is; otherwise the clusters are
recomputed with a default `ClusterRequest` and cached; a failing
computation is swallowed and yields no clusters. -/
def get_cached_clusters (P : PipelineImpl) (entropy : Nat) (s : ServerState) :
    Option ClusterResponse × ServerState :=
  let current := s.store.docs.length
  if current < 2 then (none, s)
  else if cache_is_valid s then (s.cache.clusters, s)
  else
    match compute_clusters P entropy {} s.store with
    | .ok r =>
      (some r,
        { s with cache :=
          { clusters := some r, last_updated := some s.now, document_count := current } })
    | .error _ => (none, s)

/-- Body of a document creation request from the HTTP layer. -/
structure DocRequest where
  title : String
  content : String
  tags : Option String := none

/-- POST /documents: adds one document (with the current wall-clock second
as the id timestamp) and invalidates the cluster cache; a raised store
error propagates before the invalidation line, leaving everything
unchanged. -/
def srv_add_document (P : PipelineImpl) (d : DocRequest) (s : ServerState) :
    Option String × ServerState :=
  match add_document P.encode s.now d.title d.content d.tags s.store with
  | .ok r => (some r.1, { s with store := r.2, cache := invalidate_cluster_cache })
  | .error _ => (none, s)

/-- Loop of POST /documents/import: documents are added in order and the
ids accumulated; a failing add aborts the request with the earlier
documents already inserted. No statement on this path touches the cluster
cache. -/
def srv_import_go (P : PipelineImpl) (s : ServerState) (acc : List String) :
    List DocRequest → List String × ServerState
  | [] => (acc, s)
  | d :: ds =>
    match add_document P.encode s.now d.title d.content d.tags s.store with
    | .ok r => srv_import_go P { s with store := r.2 } (acc ++ [r.1]) ds
    | .error _ => (acc, s)

/-- POST /documents/import: bulk insertion, without any cache
invalidation. -/
def srv_import_documents (P : PipelineImpl) (ds : List DocRequest) (s : ServerState) :
    List String × ServerState :=
  srv_import_go P s [] ds

/-- PUT /documents/id: a successful store update invalidates the cache; an
unknown id returns a 404 without touching anything. -/
def srv_update_document (P : PipelineImpl) (docId : String)
    (newTitle newContent newTags : Option String) (s : ServerState) : Bool × ServerState :=
  let r := update_document P.encode docId newTitle newContent newTags s.store
  if r.1 then (true, { s with store := r.2, cache := invalidate_cluster_cache })
  else (false, s)

/-- DELETE /documents/id: a successful delete invalidates the cache; an
unknown id returns a 404 without touching anything. -/
def srv_delete_document (docId : String) (s : ServerState) : Bool × ServerState :=
  let r := delete_document docId s.store
  if r.1 then (true, { s with store := r.2, cache := invalidate_cluster_cache })
  else (false, s)

/-- DELETE /documents/clear-all: clears the store and invalidates the
cache. -/
def srv_clear_all (s : ServerState) : ServerState :=
  { s with store := (clear_all s.store).2, cache := invalidate_cluster_cache }

/-- The read-only paths (document listing and search) that consult clusters
through the cache: they may fill the cache but never invalidate it. -/
def srv_read_clusters (P : PipelineImpl) (entropy : Nat) (s : ServerState) : ServerState :=
  (get_cached_clusters P entropy s).2

/-- Wall-clock advance between requests. -/
def srv_tick (d : Nat) (s : ServerState) : ServerState :=
  { s with now := s.now + d }

/-- Server states reachable through the modelled request handlers from a
process start (any persisted store, always the module-level initial cache).
The rename and cross-database move endpoints and the multi-database
registry are outside the specified core and not modelled. -/
inductive Reachable (P : PipelineImpl) (entropy : Nat) : ServerState → Prop where
  | init (st : StoreState) (t : Nat) :
      Reachable P entropy { store := st, cache := cache0, now := t }
  | add (d : DocRequest) {s : ServerState} :
      Reachable P entropy s → Reachable P entropy (srv_add_document P d s).2
  | bulk (ds : List DocRequest) {s : ServerState} :
      Reachable P entropy s → Reachable P entropy (srv_import_documents P ds s).2
  | upd (docId : String) (nt nc ntg : Option String) {s : ServerState} :
      Reachable P entropy s →
      Reachable P entropy (srv_update_document P docId nt nc ntg s).2
  | del (docId : String) {s : ServerState} :
      Reachable P entropy s → Reachable P entropy (srv_delete_document docId s).2
  | clear {s : ServerState} :
      Reachable P entropy s → Reachable P entropy (srv_clear_all s)
  | read {s : ServerState} :
      Reachable P entropy s → Reachable P entropy (srv_read_clusters P entropy s)
  | tick (d : Nat) {s : ServerState} :
      Reachable P entropy s → Reachable P entropy (srv_tick d s)

/-- A concrete embedding function for witness evaluations. -/
def w_encode : String → Vec := fun _ => [1, 0]

/-- A concrete, fully executable instantiation of the external pipeline
pieces, used only to evaluate the theorems on closed inputs: round-robin
label assignment, all-zero centers, constant silhouette value, identity
cleaning step. -/
def w_impl : PipelineImpl :=
  { encode := w_encode
    kmeans := fun _ k embs =>
      ((List.range embs.length).map (fun i => i % k), (List.range k).map (fun _ => [0, 0]))
    sil_val := fun _ _ => 0
    clean_norm := id }

/-- Concrete documents for witness evaluations. -/
def w_docA : Doc := { id := "doc_1_100", title := "Cats", content := "cats are great pets" }

/-- Second concrete document. -/
def w_docB : Doc := { id := "doc_2_100", title := "Stocks", content := "stock market analysis" }

/-- Third concrete document. -/
def w_docC : Doc := { id := "doc_3_100", title := "Physics", content := "quantum mechanics" }

/-- A one-document store. -/
def w_store1 : StoreState :=
  { docs := [w_docA], index := [("doc_1_100", [1, 0])],
    modelLoaded := true, history := ["doc_1_100"] }

/-- A two-document store with ledger and collection in lockstep. -/
def w_store2 : StoreState :=
  { docs := [w_docA, w_docB],
    index := [("doc_1_100", [1, 0]), ("doc_2_100", [5, 0])],
    modelLoaded := true, history := ["doc_1_100", "doc_2_100"] }

/-- A three-document store with ledger and collection in lockstep. -/
def w_store3 : StoreState :=
  { docs := [w_docA, w_docB, w_docC],
    index := [("doc_1_100", [1, 0]), ("doc_2_100", [5, 0]), ("doc_3_100", [1, 1])],
    modelLoaded := true, history := ["doc_1_100", "doc_2_100", "doc_3_100"] }

/-- The result list `search` produces on `w_store2` with query embedding
[1, 0] under the squared-Euclidean distance. -/
def w_rs : List SearchResult :=
  [{ document := w_docA, similarity_score := 1, index := 1 },
   { document := w_docB, similarity_score := -15, index := 2 }]

/-- An operation sequence in which the third operation re-generates the id
of the first, deleted, document: two adds in the same wall-clock second
with a delete in between. -/
def w_ops_reuse : List StoreOp :=
  [.add 100 "A" "aaa" none, .del "doc_1_100", .add 100 "B" "bbb" none]

/-- Cluster member with a duplicated tag inside its tag string. -/
def w_tag_doc1 : Doc := { id := "t1", title := "T1", content := "c", tags := some "alpha, alpha" }

/-- Untagged cluster member serving as the representative. -/
def w_tag_doc2 : Doc := { id := "t2", title := "Some Title", content := "c" }

/-- Untagged cluster member. -/
def w_tag_doc3 : Doc := { id := "t3", title := "T3", content := "c" }

/-- Untagged cluster member. -/
def w_tag_doc4 : Doc := { id := "t4", title := "T4", content := "c" }

/-- A four-member cluster in which the tag alpha occurs twice but only in
one member. -/
def w_tag_cluster : List Doc := [w_tag_doc1, w_tag_doc2, w_tag_doc3, w_tag_doc4]

/-- A server state over the three-document store with the initial cache. -/
def w_srv0 : ServerState := { store := w_store3, cache := cache0, now := 1000 }

/-- The server state after one cluster read: the cache now holds the
freshly computed response for three documents. -/
def w_srv_cached : ServerState := srv_read_clusters w_impl 0 w_srv0

/-- A document creation request used for the bulk-import scenario. -/
def w_new_req : DocRequest := { title := "New", content := "new doc" }

/-- An arbitrary cached response used to exercise the cache validity
check. -/
def w_stale_resp : ClusterResponse :=
  { clusters := [], num_clusters := 2, silhouette_score := 0, total_documents := 3 }

/-- A server state whose cache entry is exactly 24 hours old and whose
recorded document count matches the store. -/
def w_srv_stale : ServerState :=
  { store := w_store3,
    cache := { clusters := some w_stale_resp, last_updated := some 0, document_count := 3 },
    now := 86400 }

theorem mem_insert_le {α : Type _} (le : α → α → Bool) (x a : α) (l : List α) :
    a ∈ insert_le le x l ↔ a = x ∨ a ∈ l := by
  induction l with
  | nil => simp [insert_le]
  | cons y ys ih =>
    simp only [insert_le]
    by_cases h : le x y = true
    · rw [if_pos h]
      simp [List.mem_cons]
    · rw [if_neg h]
      simp only [List.mem_cons, ih]
      tauto

theorem pairwise_insert_le {α : Type _} (le : α → α → Bool)
    (htot : ∀ a b, le a b = false → le b a = true)
    (htrans : ∀ a b c, le a b = true → le b c = true → le a c = true)
    (x : α) (l : List α) (h : l.Pairwise (fun a b => le a b = true)) :
    (insert_le le x l).Pairwise (fun a b => le a b = true) := by
  induction l with
  | nil => simp [insert_le]
  | cons y ys ih =>
    obtain ⟨hy, hys⟩ := List.pairwise_cons.mp h
    simp only [insert_le]
    by_cases hxy : le x y = true
    · rw [if_pos hxy]
      refine List.pairwise_cons.mpr ⟨fun z hz => ?_, h⟩
      rcases List.mem_cons.mp hz with rfl | hz'
      · exact hxy
      · exact htrans x y z hxy (hy z hz')
    · rw [if_neg hxy]
      refine List.pairwise_cons.mpr ⟨fun z hz => ?_, ih hys⟩
      rcases (mem_insert_le le x z ys).mp hz with hzx | hz'
      · rw [hzx]
        exact htot x y (Bool.eq_false_iff.mpr hxy)
      · exact hy z hz'

theorem pairwise_sort_le {α : Type _} (le : α → α → Bool)
    (htot : ∀ a b, le a b = false → le b a = true)
    (htrans : ∀ a b c, le a b = true → le b c = true → le a c = true)
    (l : List α) :
    (sort_le le l).Pairwise (fun a b => le a b = true) := by
  induction l with
  | nil => simp [sort_le]
  | cons x xs ih => exact pairwise_insert_le le htot htrans x _ ih

theorem chroma_query_ok_facts (dist : Vec → Vec → Int) (index : List (String × Vec))
    (qv : Vec) (n : Int) (hits : List (String × Int))
    (h : chroma_query dist index qv n = .ok hits) :
    hits.length ≤ n.toNat ∧ hits.Pairwise (fun a b => a.2 ≤ b.2) := by
  unfold chroma_query at h
  by_cases hn : n ≤ 0
  · rw [if_pos hn] at h
    exact absurd h (by simp)
  · rw [if_neg hn] at h
    injection h with h
    subst h
    constructor
    · rw [List.length_take]
      exact min_le_left _ _
    · have hp := pairwise_sort_le (fun a b : String × Int => decide (a.2 ≤ b.2))
        (fun a b hab => by
          simp only [decide_eq_false_iff_not, not_le] at hab
          simpa using le_of_lt hab)
        (fun a b c hab hbc => by
          simp only [decide_eq_true_eq] at hab hbc
          simpa using le_trans hab hbc)
        (index.map (fun e => (e.1, dist qv e.2)))
      have hp' := List.Pairwise.sublist (List.take_sublist n.toNat
        (sort_le (fun a b => decide (a.2 ≤ b.2))
          (index.map (fun e => (e.1, dist qv e.2))))) hp
      exact hp'.imp (fun hab => by simpa using hab)

/-- C1: for every query and every k, a successful `search` returns at most
min(k, document count) results; on an empty store the result is exactly the
empty list with the state (in particular the model-loaded flag)
unchanged. The ledger and the collection are assumed in lockstep, the
steady-state invariant of the store. -/
theorem c1_search_k_bound (encode : String → Vec) (dist : Vec → Vec → Int)
    (q : String) (k : Int) (s : StoreState) (rs : List SearchResult) (s' : StoreState)
    (hlock : s.index.length = s.docs.length)
    (h : search encode dist q k s = .ok (rs, s')) :
    rs.length ≤ min k.toNat s.docs.length ∧
    (s.docs.length = 0 → rs = [] ∧ s' = s) := by
  unfold search at h
  by_cases h0 : s.index.length = 0
  · rw [if_pos h0] at h
    injection h with h
    obtain ⟨h1, h2⟩ := Prod.mk.injEq .. ▸ h
    refine ⟨?_, fun _ => ⟨h1.symm, h2.symm⟩⟩
    rw [← h1]
    exact Nat.zero_le _
  · rw [if_neg h0] at h
    cases hq : chroma_query dist s.index (encode q) (min k (s.index.length : Int)) with
    | error e => rw [hq] at h; exact absurd h (by simp [Except.map])
    | ok hits =>
      rw [hq] at h
      simp only [Except.map, Except.ok.injEq, Prod.mk.injEq] at h
      obtain ⟨h1, _⟩ := h
      refine ⟨?_, fun hd => absurd (hlock.trans hd) h0⟩
      rw [← h1]
      have hb := (chroma_query_ok_facts dist s.index (encode q) _ hits hq).1
      have hr : (resolve_results s.docs hits).length ≤ hits.length :=
        List.length_filterMap_le _ _
      have : (min k (s.index.length : Int)).toNat ≤ min k.toNat s.docs.length := by
        rw [← hlock]
        omega
      omega

/-- Witness for C1 on the empty store: the search returns the empty list
and does not touch the state, hence does not load the model. -/
theorem c1_search_k_bound_witness :
    ([] : List SearchResult).length ≤ min (3 : Int).toNat empty_store.docs.length ∧
    (empty_store.docs.length = 0 →
      ([] : List SearchResult) = [] ∧ empty_store = empty_store) :=
  c1_search_k_bound w_encode sq_dist "q" 3 empty_store [] empty_store (by decide) (by rfl)

/-- C2: on a successful `search`, results are ordered by non-increasing
similarity score, and the result list is exactly the order-preserving
resolution of the hits the vector index returned, not a re-sort by any
other key. -/
theorem c2_search_order (encode : String → Vec) (dist : Vec → Vec → Int)
    (q : String) (k : Int) (s : StoreState) (rs : List SearchResult) (s' : StoreState)
    (h : search encode dist q k s = .ok (rs, s')) :
    rs.Pairwise (fun a b => b.similarity_score ≤ a.similarity_score) ∧
    (s.index.length = 0 → rs = []) ∧
    (s.index.length ≠ 0 → ∃ hits,
      chroma_query dist s.index (encode q) (min k (s.index.length : Int)) = .ok hits ∧
      rs = resolve_results s.docs hits) := by
  unfold search at h
  by_cases h0 : s.index.length = 0
  · rw [if_pos h0] at h
    injection h with h
    obtain ⟨h1, _⟩ := Prod.mk.injEq .. ▸ h
    exact ⟨by rw [← h1]; exact List.Pairwise.nil, fun _ => h1.symm, fun hne => absurd h0 hne⟩
  · rw [if_neg h0] at h
    cases hq : chroma_query dist s.index (encode q) (min k (s.index.length : Int)) with
    | error e => rw [hq] at h; exact absurd h (by simp [Except.map])
    | ok hits =>
      rw [hq] at h
      simp only [Except.map, Except.ok.injEq, Prod.mk.injEq] at h
      obtain ⟨h1, _⟩ := h
      refine ⟨?_, fun hc => absurd hc h0, fun _ => ⟨hits, rfl, h1.symm⟩⟩
      rw [← h1]
      have hp := (chroma_query_ok_facts dist s.index (encode q) _ hits hq).2
      unfold resolve_results
      refine List.Pairwise.filterMap _ (fun a a' hle b hb b' hb' => ?_) hp
      rw [Option.mem_def] at hb hb'
      obtain ⟨d, _, rfl⟩ := Option.map_eq_some'.mp hb
      obtain ⟨d', _, rfl⟩ := Option.map_eq_some'.mp hb'
      simpa using by omega

/-- Witness for C2 on a two-document store: the concrete result list is in
non-increasing similarity order. -/
theorem c2_search_order_witness :
    w_rs.Pairwise (fun a b => b.similarity_score ≤ a.similarity_score) :=
  (c2_search_order w_encode sq_dist "kittens" 5 w_store2 w_rs
    { w_store2 with modelLoaded := true } (by rfl)).1

/-- C9: a non-positive k on a non-empty store makes `search` fail
synchronously with the invalid-input rejection of the vector index, rather
than return results. -/
theorem c9_nonpositive_k (encode : String → Vec) (dist : Vec → Vec → Int)
    (q : String) (k : Int) (s : StoreState)
    (hne : s.index.length ≠ 0) (hk : k ≤ 0) :
    search encode dist q k s =
      .error (.inputError "Number of requested results must be positive") := by
  unfold search
  rw [if_neg hne]
  unfold chroma_query
  rw [if_pos (le_trans (min_le_left _ _) hk)]
  rfl

/-- Witness for C9: k = 0 on the two-document store produces the
invalid-input error. -/
theorem c9_nonpositive_k_witness :
    search w_encode sq_dist "q" 0 w_store2 =
      .error (.inputError "Number of requested results must be positive") :=
  c9_nonpositive_k w_encode sq_dist "q" 0 w_store2 (by decide) (by decide)

/-- C10 counterexample: three operations in the same wall-clock second (add,
delete, add) make `add_document` hand out the id doc_1_100 twice, so the
trace of ids ever assigned has a duplicate: ids of deleted documents are
reused. -/
theorem c10_counterexample :
    ¬ ((run_ops w_encode w_ops_reuse empty_store).history.Nodup) := by decide

theorem add_document_ok_facts (encode : String → Vec) (t : Nat)
    (title content : String) (tags : Option String) (s : StoreState)
    (r : String × StoreState)
    (h : add_document encode t title content tags s = .ok r) :
    r.2.docs.map Doc.id = s.docs.map Doc.id ++ [make_doc_id s.index.length t] ∧
    (make_doc_id s.index.length t) ∉ s.docs.map Doc.id := by
  unfold add_document at h
  by_cases hdup : s.docs.any (fun d => d.id == make_doc_id s.index.length t)
  · rw [if_pos hdup] at h
    exact absurd h (by simp)
  · rw [if_neg hdup] at h
    injection h with h
    constructor
    · rw [← h]
      simp
    · intro hmem
      apply hdup
      rw [List.any_eq_true]
      obtain ⟨d, hd, hid⟩ := List.mem_map.mp hmem
      exact ⟨d, hd, by simp [hid]⟩

theorem apply_store_op_nodup (encode : String → Vec) (st : StoreState) (op : StoreOp)
    (hs : (st.docs.map Doc.id).Nodup) :
    ((apply_store_op encode st op).docs.map Doc.id).Nodup := by
  cases op with
  | add t title content tags =>
    simp only [apply_store_op]
    cases hadd : add_document encode t title content tags st with
    | error e => exact hs
    | ok r =>
      obtain ⟨heq, hnot⟩ := add_document_ok_facts encode t title content tags st r hadd
      rw [heq]
      simp only [List.nodup_append, List.nodup_cons, List.nodup_nil]
      exact ⟨hs, ⟨by simp, trivial⟩, by simpa using hnot⟩
  | del docId =>
    simp only [apply_store_op]
    unfold delete_document
    by_cases hex : st.docs.any (fun d => d.id == docId)
    · rw [if_pos hex]
      exact List.Nodup.sublist (List.Sublist.map _ (List.filter_sublist _)) hs
    · rw [if_neg hex]
      exact hs

/-- C10 amended: along every operation sequence the ids of the documents
simultaneously present stay pairwise distinct (a colliding insertion fails
and changes nothing), even though, by `c10_counterexample`, an id of a
deleted document can be handed out again. -/
theorem c10_live_ids_nodup (encode : String → Vec) (ops : List StoreOp) :
    ((run_ops encode ops empty_store).docs.map Doc.id).Nodup := by
  have main : ∀ (ops : List StoreOp) (s : StoreState),
      (s.docs.map Doc.id).Nodup → ((run_ops encode ops s).docs.map Doc.id).Nodup := by
    intro ops
    induction ops with
    | nil => intro s hs; exact hs
    | cons op rest ih =>
      intro s hs
      exact ih (apply_store_op encode s op) (apply_store_op_nodup encode s op hs)
  exact main ops empty_store (by simp [empty_store])

theorem silhouette_two_err (P : PipelineImpl) (embs : List Vec) (labels : List Nat)
    (h2 : embs.length = 2) :
    silhouette_checked P embs labels =
      .error (.valueError "Number of labels is not valid for silhouette_score") := by
  unfold silhouette_checked
  rw [if_neg]
  rw [h2]
  omega

/-- C3: with fewer than 2 documents `compute_clusters` raises the
need-at-least-2 ValueError; but contrary to the claim, with exactly 2
documents (ledger and collection in lockstep) it cannot succeed either, for
any KMeans behaviour and any request: the silhouette validation demands
between 2 and n-1 distinct labels, an empty range when n = 2. -/
theorem except_bind_ok {ε α β : Type _} (a : α) (f : α → Except ε β) :
    ((Except.ok a : Except ε α) >>= f) = f a := rfl

theorem except_pure_bind {ε α β : Type _} (a : α) (f : α → Except ε β) :
    ((pure a : Except ε α) >>= f) = f a := rfl

theorem except_bind_error {ε α β : Type _} (e : ε) (f : α → Except ε β) :
    ((Except.error e : Except ε α) >>= f) = .error e := rfl

theorem c3_cluster_minimum (P : PipelineImpl) (entropy : Nat) (req : ClusterRequest)
    (s : StoreState) (hlock : s.index.length = s.docs.length)
    (hle : s.docs.length ≤ 2) :
    (compute_clusters P entropy req s).isOk = false ∧
    (s.docs.length < 2 →
      compute_clusters P entropy req s =
        .error (.valueError "Need at least 2 documents to perform clustering")) := by
  unfold compute_clusters
  by_cases hlt : s.docs.length < 2
  · rw [if_pos hlt]
    exact ⟨rfl, fun _ => rfl⟩
  · rw [if_neg hlt]
    have h2 : s.docs.length = 2 := by omega
    have hlen : ((s.index.map (fun e => e.2)).map P.clean_norm).length = 2 := by
      simp [hlock, h2]
    rw [if_neg (by omega)]
    refine ⟨?_, fun hc => absurd hc hlt⟩
    have hcont : ∀ num : Int,
        (final_clustering P entropy req.naming_method s.docs (s.index.map (fun e => e.1))
          ((s.index.map (fun e => e.2)).map P.clean_norm) num).isOk = false := by
      intro num
      unfold final_clustering
      cases hk : kmeans_fit_predict P entropy (some 42) num
          ((s.index.map (fun e => e.2)).map P.clean_norm) with
      | error e => rfl
      | ok fit =>
        simp only [except_bind_ok]
        rw [silhouette_two_err P _ fit.1 hlen]
        rfl
    cases hnum : req.num_clusters with
    | some r =>
      rw [except_pure_bind]
      show (final_clustering P entropy req.naming_method s.docs (s.index.map (fun e => e.1))
        ((s.index.map (fun e => e.2)).map P.clean_norm)
        (num_clusters_used r ((s.index.map (fun e => e.2)).map P.clean_norm).length)).isOk
          = false
      exact hcont _
    | none =>
      cases hb : choose_best_k P entropy req.min_clusters req.max_clusters
          ((s.index.map (fun e => e.2)).map P.clean_norm) with
      | error e => rfl
      | ok bestK =>
        rw [except_bind_ok]
        exact hcont _

/-- Witness for C3: on the lockstep two-document store with the default
request and the concrete pipeline, clustering fails; on a one-document
store it fails with the need-at-least-2 error. -/
theorem c3_cluster_minimum_witness :
    (compute_clusters w_impl 0 {} w_store2).isOk = false ∧
    compute_clusters w_impl 0 {} w_store1 =
      .error (.valueError "Need at least 2 documents to perform clustering") :=
  ⟨(c3_cluster_minimum w_impl 0 {} w_store2 (by decide) (by decide)).1,
   (c3_cluster_minimum w_impl 0 {} w_store1 (by decide) (by decide)).2 (by decide)⟩

/-- C5: the clustering pipeline consumes no ambient randomness: both KMeans
call sites pass the literal seed 42, so the result is independent of the
entropy an unseeded run would have drawn, for every request and store. -/
theorem c5_cluster_determinism (P : PipelineImpl) (e1 e2 : Nat)
    (req : ClusterRequest) (s : StoreState) :
    compute_clusters P e1 req s = compute_clusters P e2 req s := rfl

/-- C4 counterexample: with 3 documents and requested_k = 0 the code uses
min(0, 2) = 0 and the final KMeans fails, while the claimed clamp into
[1, total - 1] would give 1; the used value and the claimed clamp
differ. -/
theorem c4_counterexample :
    num_clusters_used 0 3 = 0 ∧ spec_requested_k_clamp 0 3 = 1 ∧
    num_clusters_used 0 3 ≠ spec_requested_k_clamp 0 3 ∧
    (compute_clusters w_impl 0 { num_clusters := some 0 } w_store3).isOk = false :=
  ⟨by decide, by decide, by decide, by decide⟩

/-- C4 amended: when requested_k is given the candidate search is skipped
(min_clusters and max_clusters are irrelevant to the outcome), and the
value used for the final clustering is min(requested_k, total - 1): capped
above but not lifted to 1, so a non-positive capped value reaches the final
KMeans and fails there instead of being clamped. -/
theorem c4_requested_k (P : PipelineImpl) (entropy : Nat) (req : ClusterRequest)
    (s : StoreState) (r : Int) (h : req.num_clusters = some r) :
    (∀ a b, compute_clusters P entropy
        { req with min_clusters := a, max_clusters := b } s =
      compute_clusters P entropy req s) ∧
    num_clusters_used r s.index.length = min r ((s.index.length : Int) - 1) ∧
    (min r ((s.index.length : Int) - 1) < 1 → 2 ≤ s.docs.length →
      (compute_clusters P entropy req s).isOk = false) := by
  cases req with
  | mk nc mc xc nm =>
    obtain rfl : nc = some r := h
    refine ⟨fun a b => rfl, rfl, ?_⟩
    intro hmin hdocs
    unfold compute_clusters
    rw [if_neg (by omega)]
    by_cases hemb : ((s.index.map (fun e => e.2)).map P.clean_norm).length < 2
    · rw [if_pos hemb]
      rfl
    · rw [if_neg hemb]
      have hlen2 : ((s.index.map (fun e => e.2)).map P.clean_norm).length
          = s.index.length := by simp
      rw [except_pure_bind]
      show (final_clustering P entropy nm s.docs (s.index.map (fun e => e.1))
        ((s.index.map (fun e => e.2)).map P.clean_norm)
        (num_clusters_used r ((s.index.map (fun e => e.2)).map P.clean_norm).length)).isOk
          = false
      unfold final_clustering
      cases hk : kmeans_fit_predict P entropy (some 42)
          (num_clusters_used r ((s.index.map (fun e => e.2)).map P.clean_norm).length)
          ((s.index.map (fun e => e.2)).map P.clean_norm) with
      | error e => rfl
      | ok fit =>
        exfalso
        unfold kmeans_fit_predict at hk
        rw [if_neg (by unfold num_clusters_used; rw [hlen2]; omega)] at hk
        exact absurd hk (by simp)

/-- Witness for C4: the search is skipped (changing the candidate range
does not change the outcome) and the unclamped requested value 0 makes the
computation fail on the three-document store. -/
theorem c4_requested_k_witness :
    compute_clusters w_impl 0
        { num_clusters := some 0, min_clusters := 7, max_clusters := 9 } w_store3 =
      compute_clusters w_impl 0 { num_clusters := some 0 } w_store3 ∧
    (compute_clusters w_impl 0 { num_clusters := some 0 } w_store3).isOk = false :=
  ⟨(c4_requested_k w_impl 0 { num_clusters := some 0 } w_store3 0 rfl).1 7 9,
   (c4_requested_k w_impl 0 { num_clusters := some 0 } w_store3 0 rfl).2.2
     (by decide) (by decide)⟩

/-- C6: the v5 namer counts tag occurrences rather than the number of
member documents carrying a tag. With one member tagged alpha twice among
four members, the occurrence count 2 meets the half-of-4 threshold although
only 1 of the 4 members carries the tag, so the cluster is named Alpha
instead of falling back to the representative title Some Title as the
claim (and the comment in the source) prescribe. -/
theorem c6_tag_count_vs_coverage :
    generate_cluster_name_v5 w_tag_cluster "t2" = "Alpha" ∧
    generate_cluster_name_v4 w_tag_cluster "t2" = "Some Title" ∧
    (w_tag_cluster.filter
      (fun d => (split_tags (d.tags.getD "")).contains "alpha")).length = 1 ∧
    w_tag_cluster.length = 4 :=
  ⟨by decide, by decide, by decide, by decide⟩

theorem add_document_ok_len (encode : String → Vec) (t : Nat)
    (title content : String) (tags : Option String) (s : StoreState)
    (r : String × StoreState)
    (h : add_document encode t title content tags s = .ok r) :
    r.2.docs.length = s.docs.length + 1 := by
  have heq := (add_document_ok_facts encode t title content tags s r h).1
  have hlen := congrArg List.length heq
  simpa using hlen

theorem srv_import_go_facts (P : PipelineImpl) (ds : List DocRequest) :
    ∀ (s : ServerState) (acc : List String),
      (srv_import_go P s acc ds).2.cache = s.cache ∧
      ∃ new, (srv_import_go P s acc ds).1 = acc ++ new ∧
        (srv_import_go P s acc ds).2.store.docs.length =
          s.store.docs.length + new.length := by
  induction ds with
  | nil =>
    intro s acc
    exact ⟨rfl, [], by simp [srv_import_go], by simp [srv_import_go]⟩
  | cons d rest ih =>
    intro s acc
    simp only [srv_import_go]
    cases hadd : add_document P.encode s.now d.title d.content d.tags s.store with
    | error e => exact ⟨rfl, [], by simp, by simp⟩
    | ok r =>
      obtain ⟨hc, new, hids, hlen⟩ := ih { s with store := r.2 } (acc ++ [r.1])
      have hlen' : (srv_import_go P { s with store := r.2 } (acc ++ [r.1]) rest).2.store.docs.length
          = r.2.docs.length + new.length := hlen
      refine ⟨hc, r.1 :: new, ?_, ?_⟩
      · rw [hids]
        simp
      · rw [hlen', add_document_ok_len P.encode s.now d.title d.content d.tags s.store r hadd]
        simp
        omega

theorem reachable_cache_count_le (P : PipelineImpl) (entropy : Nat) (s : ServerState)
    (h : Reachable P entropy s) :
    s.cache.clusters.isSome = true → s.cache.document_count ≤ s.store.docs.length := by
  induction h with
  | init st t =>
    intro hs
    exact absurd hs (by simp [cache0, invalidate_cluster_cache])
  | @add d s0 hr ih =>
    unfold srv_add_document
    cases hadd : add_document P.encode s0.now d.title d.content d.tags s0.store with
    | ok r => intro hs; exact absurd hs (by simp [invalidate_cluster_cache])
    | error e => exact ih
  | @bulk ds s0 hr ih =>
    intro hs
    obtain ⟨hc, new, hids, hlen⟩ := srv_import_go_facts P ds s0 []
    have hc2 : (srv_import_documents P ds s0).2.cache = s0.cache := hc
    have hlen2 : (srv_import_documents P ds s0).2.store.docs.length
        = s0.store.docs.length + new.length := hlen
    rw [hc2] at hs ⊢
    rw [hlen2]
    have := ih hs
    omega
  | @upd docId nt nc ntg s0 hr ih =>
    simp only [srv_update_document]
    cases hu : (update_document P.encode docId nt nc ntg s0.store).1 with
    | true =>
      intro hs
      exact absurd hs (by simp [invalidate_cluster_cache])
    | false => exact ih
  | @del docId s0 hr ih =>
    simp only [srv_delete_document]
    cases hd : (delete_document docId s0.store).1 with
    | true =>
      intro hs
      exact absurd hs (by simp [invalidate_cluster_cache])
    | false => exact ih
  | @clear s0 hr ih =>
    intro hs
    exact absurd hs (by simp [srv_clear_all, invalidate_cluster_cache])
  | @read s0 hr ih =>
    simp only [srv_read_clusters, get_cached_clusters]
    by_cases h2 : s0.store.docs.length < 2
    · rw [if_pos h2]
      exact ih
    · rw [if_neg h2]
      by_cases hv : cache_is_valid s0 = true
      · rw [if_pos hv]
        exact ih
      · rw [if_neg hv]
        cases hcc : compute_clusters P entropy {} s0.store with
        | ok r =>
          intro _
          exact le_refl _
        | error e => exact ih
  | @tick d s0 hr ih =>
    simp only [srv_tick]
    exact ih

/-- C7 counterexample: after a cluster read fills the cache, a bulk import
that actually inserts a document leaves the cache dictionary untouched: the
claimed invalidation after every insert does not happen on the import
path. -/
theorem c7_import_no_invalidate :
    w_srv_cached.cache.clusters.isSome = true ∧
    (srv_import_documents w_impl [w_new_req] w_srv_cached).1 ≠ [] ∧
    (srv_import_documents w_impl [w_new_req] w_srv_cached).2.cache = w_srv_cached.cache :=
  ⟨by decide, by decide, by decide⟩

/-- C7 amended: after every mutation that actually changes the document set
(a successful add, a bulk import that inserted at least one document, a
successful update or delete, or a clear-all), the cache validity check of a
subsequent cluster read fails, forcing recomputation; adds, updates,
deletes and clear-all get this by explicit invalidation, bulk import only
through the document-count comparison of the cache check. -/
theorem c7_mutation_forces_recompute (P : PipelineImpl) (entropy : Nat) (s : ServerState)
    (hr : Reachable P entropy s) :
    (∀ d docId, (srv_add_document P d s).1 = some docId →
      cache_is_valid (srv_add_document P d s).2 = false) ∧
    (∀ ds, (srv_import_documents P ds s).1 ≠ [] →
      cache_is_valid (srv_import_documents P ds s).2 = false) ∧
    (∀ docId nt nc ntg, (srv_update_document P docId nt nc ntg s).1 = true →
      cache_is_valid (srv_update_document P docId nt nc ntg s).2 = false) ∧
    (∀ docId, (srv_delete_document docId s).1 = true →
      cache_is_valid (srv_delete_document docId s).2 = false) ∧
    cache_is_valid (srv_clear_all s) = false := by
  refine ⟨?_, ?_, ?_, ?_, ?_⟩
  · intro d docId
    unfold srv_add_document
    cases hadd : add_document P.encode s.now d.title d.content d.tags s.store with
    | ok r => intro _; rfl
    | error e => intro h; simp at h
  · intro ds hne
    obtain ⟨hc, new, hids, hlen⟩ := srv_import_go_facts P ds s []
    have hc2 : (srv_import_documents P ds s).2.cache = s.cache := hc
    have hlen2 : (srv_import_documents P ds s).2.store.docs.length
        = s.store.docs.length + new.length := hlen
    have hids2 : (srv_import_documents P ds s).1 = new := by
      have : (srv_import_documents P ds s).1 = [] ++ new := hids
      simpa using this
    have hnew : 1 ≤ new.length := by
      cases new with
      | nil => exact absurd hids2 (by simpa using hne)
      | cons a l => simp
    unfold cache_is_valid
    rw [hc2, hlen2]
    cases hcl : s.cache.clusters with
    | none => rfl
    | some c =>
      have hle := reachable_cache_count_le P entropy s hr (by rw [hcl]; rfl)
      have hbeq : (s.cache.document_count == s.store.docs.length + new.length) = false := by
        simp only [beq_eq_false_iff_ne]
        omega
      simp only [Option.isSome_some, Bool.true_and, hbeq, Bool.false_and]
  · intro docId nt nc ntg
    simp only [srv_update_document]
    cases hu : (update_document P.encode docId nt nc ntg s.store).1 with
    | true => intro _; rfl
    | false => intro h; simp at h
  · intro docId
    simp only [srv_delete_document]
    cases hd : (delete_document docId s.store).1 with
    | true => intro _; rfl
    | false => intro h; simp at h
  · rfl

/-- Witness for C7: in the concrete reachable state whose cache was filled
by a cluster read, a one-document bulk import makes the subsequent cache
check fail (here through the count comparison, the cache itself not having
been cleared). -/
theorem c7_mutation_forces_recompute_witness :
    cache_is_valid (srv_import_documents w_impl [w_new_req] w_srv_cached).2 = false :=
  (c7_mutation_forces_recompute w_impl 0 w_srv_cached
      (Reachable.read (Reachable.init w_store3 1000))).2.1 [w_new_req] (by decide)

/-- C8: the TTL comparison reads the seconds attribute of the timedelta,
which discards whole days: a cache entry exactly 24 hours old (with
matching document count) passes the validity check and is served, although
the claim requires any cache older than one hour to force
recomputation. -/
theorem c8_ttl_ignores_days (P : PipelineImpl) (entropy : Nat) (s : ServerState)
    (resp : ClusterResponse) (lu : Nat)
    (hc : s.cache.clusters = some resp)
    (hcount : s.cache.document_count = s.store.docs.length)
    (hlu : s.cache.last_updated = some lu)
    (hage : s.now - lu = 86400)
    (h2 : 2 ≤ s.store.docs.length) :
    cache_is_valid s = true ∧ get_cached_clusters P entropy s = (some resp, s) := by
  have hv : cache_is_valid s = true := by
    unfold cache_is_valid
    rw [hc, hlu, hcount]
    simp [timedelta_seconds, hage]
  refine ⟨hv, ?_⟩
  unfold get_cached_clusters
  rw [if_neg (by omega), if_pos hv, hc]

/-- Witness for C8: a concrete server state whose cache entry is 86400
seconds old and count-consistent is served unchanged. -/
theorem c8_ttl_ignores_days_witness :
    cache_is_valid w_srv_stale = true ∧
    get_cached_clusters w_impl 0 w_srv_stale = (some w_stale_resp, w_srv_stale) :=
  c8_ttl_ignores_days w_impl 0 w_srv_stale w_stale_resp 0
    rfl (by decide) rfl (by decide) (by decide)
